import Mathlib

/-!
Verification of the BlueShare core (src/blueshare/core/blueshare.c and
src/blueshare/core/zero.c) against its natural-language specification.

The C sources are shallowly embedded: enums become inductive types, structs
become structures, the `next`-pointer linked list of devices becomes a
`List device_node_t`, C `double` arithmetic is modelled by exact rationals
(`ℚ`), machine integers by `Nat`/`Int` (with an explicit `% 2 ^ 64` where
uint64 overflow matters), and `time_t` values are threaded explicitly as a
`now` parameter.  Functions that in C mutate a session or device in place
are embedded as functions returning the updated value; each printf branch
of a C function that distinguishes outcomes is represented by an explicit
result type.
-/

-- ===========================================================================
-- Data model (blueshare.c, lines 17-121)
-- ===========================================================================

/-- Shallow embedding of `trinary_state_t` (blueshare.c:17-22). -/
inductive trinary_state_t
  | STATE_NO
  | STATE_YES
  | STATE_MAYBE
  | STATE_EPSILON
deriving DecidableEq

/-- Shallow embedding of `nsigii_symbol_t` (blueshare.c:24-28); the C
`double entropy` is modelled as an exact rational, `time_t` as `ℤ`. -/
structure nsigii_symbol_t where
  state : trinary_state_t
  entropy : ℚ
  timestamp : ℤ
deriving DecidableEq

/-- Shallow embedding of `network_topology_t` (blueshare.c:31-36). -/
inductive network_topology_t
  | TOPOLOGY_STAR
  | TOPOLOGY_BUS
  | TOPOLOGY_MESH
  | TOPOLOGY_HYBRID
deriving DecidableEq

/-- Shallow embedding of `device_role_t` (blueshare.c:39-44). -/
inductive device_role_t
  | ROLE_HOST
  | ROLE_CLIENT
  | ROLE_RELAY
  | ROLE_OBSERVER
deriving DecidableEq

/-- Shallow embedding of `payment_state_t` (blueshare.c:47-53). -/
inductive payment_state_t
  | PAYMENT_PENDING
  | PAYMENT_AUTHORIZED
  | PAYMENT_PROCESSING
  | PAYMENT_SETTLED
  | PAYMENT_FAILED
deriving DecidableEq

/-- Shallow embedding of `device_node_t` (blueshare.c:56-85).  The
`uint8_t rssi` field is an unsigned byte, embedded as `Nat` (its value is
always non-negative, which is exactly what matters for consent); the
`uint64_t` byte counters are `Nat` and reduced `% 2 ^ 64` where they are
combined; `double` fields are `ℚ`.  The `next` pointer is dropped: a
session's device chain is embedded as a `List device_node_t`.  The
`parent`/`peers` topology links are never read by the verified functions
and are omitted. -/
structure device_node_t where
  device_id : String
  device_name : String
  role : device_role_t
  rssi : Nat
  mtu : Nat
  bytes_sent : Nat
  bytes_received : Nat
  bandwidth_mbps : ℚ
  cost_per_mb : ℚ
  balance_usd : ℚ
  payment_status : payment_state_t
  consent_state : nsigii_symbol_t
  last_seen : ℤ
deriving DecidableEq

/-- Shallow embedding of `blueshare_session_t` (blueshare.c:88-112).  The
`device_node_t *devices` linked list is a `List`; `device_count` remains a
separate field exactly as in the struct (the C code never rederives it from
the list).  The `uint8_t` flags keep their C representation as `Nat`
(0 = false, nonzero = true). -/
structure blueshare_session_t where
  session_id : String
  topology : network_topology_t
  devices : List device_node_t
  device_count : Nat
  total_bandwidth_mbps : ℚ
  fair_share_mbps : ℚ
  total_cost_usd : ℚ
  cost_per_device : ℚ
  session_start : ℤ
  session_end : ℤ
  is_active : Nat
  transparency_verified : Nat
  fairness_verified : Nat
  privacy_verified : Nat
deriving DecidableEq

/-- Shallow embedding of `lightning_payment_t` (blueshare.c:115-121).  The
`payment_hash` field is never written by the core and is modelled as left
at its default. -/
structure lightning_payment_t where
  invoice : String
  amount_satoshi : Nat
  payment_hash : String
  expiry : ℤ
  status : payment_state_t
deriving DecidableEq

-- ===========================================================================
-- NSIGII consensus (blueshare.c:127-195)
-- ===========================================================================

/-- Shallow embedding of `request_device_consent` (blueshare.c:131-149).
In C the guard is `device->rssi > -70` where `rssi` has type `uint8_t`:
under the usual arithmetic conversions the unsigned byte is promoted to a
non-negative `int` before the comparison, which we render by casting the
`Nat` value into `ℤ`.  The function mutates `device->consent_state.state`
and `.timestamp` and returns the chosen state; here it returns the updated
device together with that state.  `request_type` is only printed in C and
is unused. -/
def request_device_consent (device : device_node_t) (request_type : String)
    (now : ℤ) : device_node_t × trinary_state_t :=
  let st : trinary_state_t :=
    if (-70 : ℤ) < (device.rssi : ℤ) then trinary_state_t.STATE_YES
    else if (device.rssi : ℤ) < (-90 : ℤ) then trinary_state_t.STATE_NO
    else trinary_state_t.STATE_MAYBE
  let device' : device_node_t :=
    { device with
      consent_state :=
        { device.consent_state with state := st, timestamp := now } }
  (device', st)

/-- Mirror of the counting loop of `verify_network_consensus`
(blueshare.c:157-177): one pass over the device chain accumulating
`(yes_count, no_count, maybe_count)`; `STATE_EPSILON` falls into the
`default` branch and is not counted. -/
def consensus_counts (devs : List device_node_t) : Nat × Nat × Nat :=
  devs.foldl
    (fun acc d =>
      match d.consent_state.state with
      | trinary_state_t.STATE_YES => (acc.1 + 1, acc.2.1, acc.2.2)
      | trinary_state_t.STATE_NO => (acc.1, acc.2.1 + 1, acc.2.2)
      | trinary_state_t.STATE_MAYBE => (acc.1, acc.2.1, acc.2.2 + 1)
      | trinary_state_t.STATE_EPSILON => acc)
    (0, 0, 0)

/-- Outcomes of `verify_network_consensus`, one per printf branch of
blueshare.c:183-194: "REJECTED (devices objected)", "VERIFIED (majority
agreement)", "PENDING (awaiting more responses)".  The C return value is
1 for `VERIFIED` and 0 for the other two. -/
inductive consensus_result
  | REJECTED
  | VERIFIED
  | PENDING
deriving DecidableEq

/-- Shallow embedding of `verify_network_consensus` (blueshare.c:154-195).
`session->device_count / 2` is C integer (floor) division on `size_t`,
rendered as `Nat` division. -/
def verify_network_consensus (session : blueshare_session_t) :
    consensus_result :=
  let c := consensus_counts session.devices
  if 0 < c.2.1 then consensus_result.REJECTED
  else if session.device_count / 2 ≤ c.1 then consensus_result.VERIFIED
  else consensus_result.PENDING

/-- The `uint8_t` actually returned by `verify_network_consensus`: 1 on the
VERIFIED branch, 0 otherwise. -/
def verify_network_consensus_ret (session : blueshare_session_t) : Nat :=
  match verify_network_consensus session with
  | consensus_result.VERIFIED => 1
  | _ => 0

/-- Specification-level reading of the YES tally: the number of devices
whose consent state is `STATE_YES`. -/
def yes_count (devs : List device_node_t) : Nat :=
  devs.countP (fun d => decide (d.consent_state.state = trinary_state_t.STATE_YES))

/-- Specification-level reading of the NO tally. -/
def no_count (devs : List device_node_t) : Nat :=
  devs.countP (fun d => decide (d.consent_state.state = trinary_state_t.STATE_NO))

-- ===========================================================================
-- Topology selection (blueshare.c:204-236)
-- ===========================================================================

/-- Mirror of the host-counting loop of `determine_topology`
(blueshare.c:208-215). -/
def host_count (devs : List device_node_t) : Nat :=
  devs.foldl (fun acc d => if d.role = device_role_t.ROLE_HOST then acc + 1 else acc) 0

/-- Shallow embedding of `determine_topology` (blueshare.c:204-236).  Note
the `host_count == 0` branch: the C code prints "ERROR: No hosts available"
but then returns `TOPOLOGY_STAR` as a fallback instead of surfacing an
error — the embedding reproduces that fallback faithfully. -/
def determine_topology (device_count : Nat) (devices : List device_node_t) :
    network_topology_t :=
  if host_count devices = 0 then network_topology_t.TOPOLOGY_STAR
  else if device_count ≤ 3 ∧ host_count devices = 1 then network_topology_t.TOPOLOGY_STAR
  else if device_count ≤ 5 ∧ host_count devices ≤ 2 then network_topology_t.TOPOLOGY_BUS
  else if 2 ≤ host_count devices then network_topology_t.TOPOLOGY_MESH
  else network_topology_t.TOPOLOGY_HYBRID

-- ===========================================================================
-- Bandwidth allocation (blueshare.c:242-265)
-- ===========================================================================

/-- Mirror of the host-bandwidth summing loop of `calculate_fair_bandwidth`
(blueshare.c:246-254): one pass over the device chain adding
`bandwidth_mbps` for `ROLE_HOST` devices only. -/
def host_bandwidth_fold (devs : List device_node_t) : ℚ :=
  devs.foldl
    (fun acc d =>
      if d.role = device_role_t.ROLE_HOST then acc + d.bandwidth_mbps else acc)
    0

/-- Shallow embedding of `calculate_fair_bandwidth` (blueshare.c:242-265):
one pass over the device chain summing `bandwidth_mbps` over `ROLE_HOST`
devices, then `fair_share_mbps = (total_available * 2.0) / device_count`,
with `double` arithmetic modelled exactly over `ℚ`. -/
def calculate_fair_bandwidth (session : blueshare_session_t) :
    blueshare_session_t :=
  let total_available : ℚ := host_bandwidth_fold session.devices
  { session with
    total_bandwidth_mbps := total_available,
    fair_share_mbps := total_available * 2 / (session.device_count : ℚ) }

/-- Specification-level reading of the host bandwidth total: the sum of
`bandwidth_mbps` over devices whose role is `ROLE_HOST` only. -/
def total_host_bandwidth (devs : List device_node_t) : ℚ :=
  ((devs.filter (fun d => decide (d.role = device_role_t.ROLE_HOST))).map
    (fun d => d.bandwidth_mbps)).sum

-- ===========================================================================
-- Cost sharing (blueshare.c:275-312)
-- ===========================================================================

/-- The `work_per_mb` constant of `calculate_cost_sharing`
(blueshare.c:279-284): `force_newtons * distance_meters * cosine_theta`.
The decimal literals are exact over `ℚ`. -/
def work_per_mb : ℚ := 1.25 * 15.0 * 0.866

/-- The `usd_per_joule` constant (blueshare.c:287). -/
def usd_per_joule : ℚ := 0.00001

/-- Per-device cost of one iteration of the loop in `calculate_cost_sharing`
(blueshare.c:293-294).  The C sum `bytes_sent + bytes_received` is `uint64_t`
addition, hence the explicit `% 2 ^ 64`; the conversion of the resulting
integer to `double` and the divisions/multiplications are exact over `ℚ`. -/
def device_cost (d : device_node_t) : ℚ :=
  ((((d.bytes_sent + d.bytes_received) % 2 ^ 64 : ℕ) : ℚ) / (1024 * 1024))
    * work_per_mb * usd_per_joule

/-- One iteration of the accounting loop of `calculate_cost_sharing`
(blueshare.c:291-303): sets the device's `balance_usd` and adds the same
amount to the running total. -/
def cost_step (acc : List device_node_t × ℚ) (d : device_node_t) :
    List device_node_t × ℚ :=
  (acc.1 ++ [{ d with balance_usd := device_cost d }], acc.2 + device_cost d)

/-- Shallow embedding of `calculate_cost_sharing` (blueshare.c:275-312):
walks the device chain once, storing each device's cost in its balance and
accumulating `total_cost_usd` as a running sum, then sets
`cost_per_device` and the transparency/fairness flags. -/
def calculate_cost_sharing (session : blueshare_session_t) :
    blueshare_session_t :=
  let r := session.devices.foldl cost_step ([], 0)
  { session with
    devices := r.1,
    total_cost_usd := r.2,
    cost_per_device := r.2 / (session.device_count : ℚ),
    transparency_verified := 1,
    fairness_verified := 1 }

-- ===========================================================================
-- Lightning payment (blueshare.c:317-342)
-- ===========================================================================

/-- The `btc_per_usd` constant of `process_lightning_payment`
(blueshare.c:323): the conversion rate is hard-coded as `1.0 / 40000.0`. -/
def btc_per_usd : ℚ := 1 / 40000

/-- The `satoshi_per_btc` constant (blueshare.c:324). -/
def satoshi_per_btc : Nat := 100000000

/-- Shallow embedding of `process_lightning_payment` (blueshare.c:317-342).
The C cast `(uint64_t)(amount_usd * btc_per_usd * satoshi_per_btc)`
truncates a non-negative `double` toward zero, rendered as
`Int.toNat ∘ Int.floor` (for negative amounts the C cast is undefined
behaviour; theorems about this function carry `0 ≤ amount_usd`).  The
function builds a local invoice, stamps `expiry = now + 600`, marks the
invoice `PAYMENT_AUTHORIZED`, sets the device's `payment_status` to
`PAYMENT_SETTLED` and returns 1. -/
def process_lightning_payment (device : device_node_t) (amount_usd : ℚ)
    (now : ℤ) : device_node_t × lightning_payment_t × Nat :=
  let amount_satoshi : Nat :=
    (⌊amount_usd * btc_per_usd * (satoshi_per_btc : ℚ)⌋).toNat
  let payment : lightning_payment_t :=
    { invoice := "lnbc" ++ toString amount_satoshi ++ "u1p...",
      amount_satoshi := amount_satoshi,
      payment_hash := "",
      expiry := now + 600,
      status := payment_state_t.PAYMENT_AUTHORIZED }
  ({ device with payment_status := payment_state_t.PAYMENT_SETTLED },
   payment, 1)

/-- Banker's rounding (round half to even) over `ℚ`, the rounding mode the
specification prescribes for the USD-to-satoshi conversion.  Stated from
the spec's words for comparison with the source's truncation. -/
def bankers_round (q : ℚ) : ℤ :=
  if q - ⌊q⌋ < 1 / 2 then ⌊q⌋
  else if 1 / 2 < q - ⌊q⌋ then ⌊q⌋ + 1
  else if ⌊q⌋ % 2 = 0 then ⌊q⌋ else ⌊q⌋ + 1

-- ===========================================================================
-- Constitutional compliance (blueshare.c:351-386)
-- ===========================================================================

/-- Shallow embedding of `verify_constitutional_compliance`
(blueshare.c:351-386).  The C function checks `transparency_verified` and
`fairness_verified`, but for privacy it *assigns*
`session->privacy_verified = 1` itself (blueshare.c:373) without ever
testing the pre-existing flag; the embedding reproduces this.  Returns the
updated session and the `uint8_t passed` result. -/
def verify_constitutional_compliance (session : blueshare_session_t) :
    blueshare_session_t × Nat :=
  let passed : Nat := 1
  let passed := if session.transparency_verified = 0 then 0 else passed
  let passed := if session.fairness_verified = 0 then 0 else passed
  ({ session with privacy_verified := 1 }, passed)

-- ===========================================================================
-- Node-Zero phantom encoder (zero.c:22-265)
-- ===========================================================================

/-- Shallow embedding of `zero_id_t` (zero.c:22-27); the fixed 32-byte
arrays are lists of bytes (`Nat`), with length-32 side conditions carried
by theorems where layout matters. -/
structure zero_id_t where
  version : Nat
  hash : List Nat
  salt : List Nat
  created : ℤ
deriving DecidableEq

/-- Shallow embedding of `zero_key_t` (zero.c:29-33). -/
structure zero_key_t where
  hash : List Nat
  timestamp : ℤ
  expiration : ℤ
deriving DecidableEq

/-- Shallow embedding of `zero_proof_t` (zero.c:35-39); the digest field is
named `proof` exactly as in the source. -/
structure zero_proof_t where
  proof : List Nat
  challenge : List Nat
  timestamp : ℤ
deriving DecidableEq

/-- Shallow embedding of `zero_context_t` (zero.c:41-45). -/
structure zero_context_t where
  algorithm : String
  master_key : List Nat
  context_salt : List Nat
deriving DecidableEq

/-- Shallow embedding of `create_proof` (zero.c:175-196), parametric in the
external `SHA256` primitive (OpenSSL, outside this repository): the digest
is `sha256 (zid.hash ++ challenge)` and the challenge is copied into the
proof.  The claims fix 32-byte challenges, matching the struct layout. -/
def create_proof (sha256 : List Nat → List Nat) (ctx : zero_context_t)
    (zid : zero_id_t) (challenge : List Nat) (now : ℤ) : zero_proof_t :=
  { proof := sha256 (zid.hash ++ challenge),
    challenge := challenge,
    timestamp := now }

/-- Mirror of the constant-time comparison loop of `verify_proof`
(zero.c:218-221): `matches &= (proof->proof[i] == expected_proof[i])` over
all 32 byte positions.  Reads of the fixed C arrays are rendered with
`List.getD _ 0` (a `zero_proof_t` digest is a 32-byte array; positions past
a shorter model list read the zero-initialised default). -/
def proof_matches (a b : List Nat) : Bool :=
  (List.range 32).all (fun i => a.getD i 0 == b.getD i 0)

/-- Shallow embedding of `verify_proof` (zero.c:203-230): recompute
`sha256 (zid.hash ++ proof.challenge)` and compare all 32 digest bytes. -/
def verify_proof (sha256 : List Nat → List Nat) (ctx : zero_context_t)
    (proof : zero_proof_t) (zid : zero_id_t) : Bool :=
  proof_matches proof.proof (sha256 (zid.hash ++ proof.challenge))

/-- On-disk artifacts written by the persistence functions of zero.c:
either a serialized `zero_id_t` record or a serialized `zero_key_t`
record. -/
inductive zero_artifact
  | idRecord (zid : zero_id_t)
  | keyRecord (key : zero_key_t)
deriving DecidableEq

/-- Shallow embedding of `save_zero_id` (zero.c:236-247): `fopen(..., "wb")`
followed by `fwrite` of the whole record — the file at `filename` is
created or truncated and then holds exactly the ID record.  The function
performs no check on `filename` and signals no error to its caller (it
returns `void`); the file system is modelled as a map from paths to
artifacts. -/
def save_zero_id (zid : zero_id_t) (filename : String)
    (fs : String → Option zero_artifact) : String → Option zero_artifact :=
  fun path => if path = filename then some (zero_artifact.idRecord zid) else fs path

/-- Shallow embedding of `save_zero_key` (zero.c:254-265): identical write
pipeline for the key record, again with no path validation and no error
result. -/
def save_zero_key (key : zero_key_t) (filename : String)
    (fs : String → Option zero_artifact) : String → Option zero_artifact :=
  fun path => if path = filename then some (zero_artifact.keyRecord key) else fs path

-- ===========================================================================
-- Concrete inputs for the claim theorems
-- ===========================================================================

/-- Helper: a device with every field defaulted except name, role and
consent state, used to build concrete sessions for the claim theorems. -/
def mkDevice (name : String) (role : device_role_t) (st : trinary_state_t) :
    device_node_t :=
  { device_id := name
    device_name := name
    role := role
    rssi := 0
    mtu := 0
    bytes_sent := 0
    bytes_received := 0
    bandwidth_mbps := 0
    cost_per_mb := 0
    balance_usd := 0
    payment_status := payment_state_t.PAYMENT_PENDING
    consent_state := { state := st, entropy := 0, timestamp := 0 }
    last_seen := 0 }

/-- Helper: a session with every field defaulted except the device chain
and the `device_count` field. -/
def mkSession (devs : List device_node_t) (n : Nat) : blueshare_session_t :=
  { session_id := "blueshare-demo-001"
    topology := network_topology_t.TOPOLOGY_STAR
    devices := devs
    device_count := n
    total_bandwidth_mbps := 0
    fair_share_mbps := 0
    total_cost_usd := 0
    cost_per_device := 0
    session_start := 0
    session_end := 0
    is_active := 1
    transparency_verified := 0
    fairness_verified := 0
    privacy_verified := 0 }

/-- Failing input for claim C1: three devices voting YES, MAYBE, MAYBE with
`device_count = 3`. -/
def sessionC1 : blueshare_session_t :=
  mkSession
    [mkDevice "a" device_role_t.ROLE_HOST trinary_state_t.STATE_YES,
     mkDevice "b" device_role_t.ROLE_CLIENT trinary_state_t.STATE_MAYBE,
     mkDevice "c" device_role_t.ROLE_CLIENT trinary_state_t.STATE_MAYBE]
    3

/-- Failing input for claim C3: a session whose transparency and fairness
flags are set but whose privacy flag is absent. -/
def sessionC3 : blueshare_session_t :=
  { mkSession [] 0 with
    transparency_verified := 1
    fairness_verified := 1
    privacy_verified := 0 }

-- ===========================================================================
-- Claim theorems
-- ===========================================================================

/-- Claim C1: the claim requires ACCEPTED only when `yes_count ≥
⌈device_count / 2⌉` with ties breaking toward PENDING.  The code instead
compares against the C integer (floor) division `device_count / 2`
(blueshare.c:188): at the failing input of three devices voting
[YES, MAYBE, MAYBE] it returns VERIFIED (accepted, return value 1) although
`yes_count = 1 < 2 = ⌈3/2⌉`, where the claim — and the code's own comment
"Require majority YES" — demands PENDING. -/
theorem consensus_accepts_minority_at_three_devices :
    yes_count sessionC1.devices = 1 ∧
    no_count sessionC1.devices = 0 ∧
    sessionC1.device_count = 3 ∧
    yes_count sessionC1.devices < (sessionC1.device_count + 1) / 2 ∧
    verify_network_consensus sessionC1 = consensus_result.VERIFIED ∧
    verify_network_consensus_ret sessionC1 = 1 := by
  decide

/-- Claim C2: for every device set with no Host device, `determine_topology`
takes the `host_count == 0` branch (blueshare.c:217-220) and returns
`TOPOLOGY_STAR` as a fallback — it never raises the no-hosts-available
error the claim requires (the function's only error channel is a printf). -/
theorem topology_star_fallback_when_no_hosts (n : Nat)
    (devs : List device_node_t) (h : host_count devs = 0) :
    determine_topology n devs = network_topology_t.TOPOLOGY_STAR := by
  simp [determine_topology, h]

/-- Witness for `topology_star_fallback_when_no_hosts`: a single client
device, no hosts. -/
theorem topology_star_fallback_when_no_hosts_witness :
    host_count
      [mkDevice "client" device_role_t.ROLE_CLIENT trinary_state_t.STATE_YES] = 0 ∧
    determine_topology 1
      [mkDevice "client" device_role_t.ROLE_CLIENT trinary_state_t.STATE_YES]
      = network_topology_t.TOPOLOGY_STAR :=
  ⟨by decide,
   topology_star_fallback_when_no_hosts 1
     [mkDevice "client" device_role_t.ROLE_CLIENT trinary_state_t.STATE_YES]
     (by decide)⟩

/-- Claim C3: the claim requires PASS only when all three compliance flags
were already set, with `privacy_verified` never granted by the auditor
itself.  The code checks only transparency and fairness and *assigns*
`privacy_verified = 1` itself (blueshare.c:373): at the failing input —
transparency and fairness set, privacy absent — it returns PASS (1) and
grants the privacy flag on its own. -/
theorem compliance_passes_without_privacy_flag :
    sessionC3.transparency_verified = 1 ∧
    sessionC3.fairness_verified = 1 ∧
    sessionC3.privacy_verified = 0 ∧
    (verify_constitutional_compliance sessionC3).2 = 1 ∧
    (verify_constitutional_compliance sessionC3).1.privacy_verified = 1 := by
  decide

/-- Claim C7: persisting a ZeroID and then a ZeroKey to the *same* path
never raises the key-collocation error the claim requires: both writes are
unconditional `fopen`/`fwrite` pipelines with no path check (zero.c:236-247
and zero.c:254-265), so for every path the second write silently replaces
the ID record with the key record and no error reaches the caller (the
functions return `void`). -/
theorem save_key_over_id_same_path_no_error (zid : zero_id_t)
    (key : zero_key_t) (p : String) (fs : String → Option zero_artifact) :
    save_zero_key key p (save_zero_id zid p fs) p
      = some (zero_artifact.keyRecord key) := by
  simp [save_zero_key, save_zero_id]

/-- Claim C9: because `rssi` is the unsigned type `uint8_t`, its promoted
value is non-negative, so `rssi > -70` always holds and
`request_device_consent` sets and returns YES for every device; the NO and
MAYBE branches are unreachable. -/
theorem consent_always_yes (device : device_node_t) (request_type : String)
    (now : ℤ) :
    (request_device_consent device request_type now).2
      = trinary_state_t.STATE_YES ∧
    (request_device_consent device request_type now).1.consent_state.state
      = trinary_state_t.STATE_YES := by
  have h : (-70 : ℤ) < (device.rssi : ℤ) :=
    lt_of_lt_of_le (by norm_num) (Int.natCast_nonneg _)
  constructor <;> simp [request_device_consent, h]

/-- Claim C10: `process_lightning_payment` returns 1 and sets the device's
`payment_status` directly to `PAYMENT_SETTLED` on its single straight-line
path (blueshare.c:340-341); in particular the device is never left in
`PAYMENT_PROCESSING` or `PAYMENT_FAILED`. -/
theorem payment_always_settles (device : device_node_t) (amount_usd : ℚ)
    (now : ℤ) :
    (process_lightning_payment device amount_usd now).2.2 = 1 ∧
    (process_lightning_payment device amount_usd now).1.payment_status
      = payment_state_t.PAYMENT_SETTLED ∧
    (process_lightning_payment device amount_usd now).1.payment_status
      ≠ payment_state_t.PAYMENT_PROCESSING ∧
    (process_lightning_payment device amount_usd now).1.payment_status
      ≠ payment_state_t.PAYMENT_FAILED := by
  refine ⟨rfl, rfl, ?_, ?_⟩ <;> simp [process_lightning_payment]

-- ===========================================================================
-- Helper lemmas shared by the remaining claims
-- ===========================================================================

/-- Unfolding `total_host_bandwidth` over a cons cell. -/
lemma total_host_bandwidth_cons (d : device_node_t) (t : List device_node_t) :
    total_host_bandwidth (d :: t)
      = (if d.role = device_role_t.ROLE_HOST then d.bandwidth_mbps else 0)
        + total_host_bandwidth t := by
  by_cases hd : d.role = device_role_t.ROLE_HOST <;>
    simp [total_host_bandwidth, List.filter_cons, hd]

/-- The source's host-bandwidth accumulation loop computes the
specification's filtered sum, for any starting accumulator. -/
lemma host_bandwidth_fold_eq_acc (l : List device_node_t) (a : ℚ) :
    l.foldl
      (fun acc d =>
        if d.role = device_role_t.ROLE_HOST then acc + d.bandwidth_mbps else acc)
      a
      = a + total_host_bandwidth l := by
  induction l generalizing a with
  | nil => simp [total_host_bandwidth]
  | cons d t ih =>
    rw [List.foldl_cons, ih, total_host_bandwidth_cons]
    by_cases hd : d.role = device_role_t.ROLE_HOST <;> simp [hd] <;> ring

/-- The source's host-bandwidth loop equals the specification's sum over
the Host-filtered device list. -/
lemma host_bandwidth_fold_eq (l : List device_node_t) :
    host_bandwidth_fold l = total_host_bandwidth l := by
  rw [host_bandwidth_fold, host_bandwidth_fold_eq_acc, zero_add]

/-- The cost-accounting loop of `calculate_cost_sharing` produces, from any
starting accumulator, the balance-updated device list and the running total
of the per-device costs. -/
lemma cost_foldl_acc (l : List device_node_t) (acc : List device_node_t × ℚ) :
    (l.foldl cost_step acc).1
        = acc.1 ++ l.map (fun d => { d with balance_usd := device_cost d }) ∧
    (l.foldl cost_step acc).2 = acc.2 + (l.map device_cost).sum := by
  induction l generalizing acc with
  | nil => simp
  | cons d t ih =>
    rw [List.foldl_cons]
    refine ⟨((ih (cost_step acc d)).1).trans ?_, ((ih (cost_step acc d)).2).trans ?_⟩
    · simp [cost_step]
    · simp [cost_step]
      ring

-- ===========================================================================
-- Remaining claim theorems
-- ===========================================================================

/-- Claim C6: `calculate_fair_bandwidth` sets `fair_share_mbps` to
`2 × total_host_bandwidth / device_count`, where `total_host_bandwidth`
sums `bandwidth_mbps` over Host-role devices only, and the result satisfies
invariant C2: `fair_share × device_count = 2 × total_host_bandwidth`
exactly (arithmetic over `ℚ`; the session must have at least one
device). -/
theorem fair_bandwidth_spec (s : blueshare_session_t)
    (h : s.device_count ≠ 0) :
    (calculate_fair_bandwidth s).total_bandwidth_mbps
      = total_host_bandwidth s.devices ∧
    (calculate_fair_bandwidth s).fair_share_mbps
      = 2 * total_host_bandwidth s.devices / (s.device_count : ℚ) ∧
    (calculate_fair_bandwidth s).fair_share_mbps * (s.device_count : ℚ)
      = 2 * total_host_bandwidth s.devices := by
  have hn : ((s.device_count : ℚ)) ≠ 0 := Nat.cast_ne_zero.mpr h
  refine ⟨?_, ?_, ?_⟩
  · simp [calculate_fair_bandwidth, host_bandwidth_fold_eq]
  · simp [calculate_fair_bandwidth, host_bandwidth_fold_eq]
    ring
  · simp only [calculate_fair_bandwidth, host_bandwidth_fold_eq]
    field_simp
    ring

/-- Concrete session for the claim C6 witness: the four demo devices of
blueshare.c:408-448 (one host with 10 Mbps). -/
def sessionC6 : blueshare_session_t :=
  mkSession
    [{ mkDevice "Alice" device_role_t.ROLE_HOST trinary_state_t.STATE_YES with
         bandwidth_mbps := 10 },
     mkDevice "Bob" device_role_t.ROLE_CLIENT trinary_state_t.STATE_YES,
     mkDevice "Carol" device_role_t.ROLE_CLIENT trinary_state_t.STATE_YES,
     mkDevice "Dave" device_role_t.ROLE_RELAY trinary_state_t.STATE_YES]
    4

/-- Witness for `fair_bandwidth_spec`: at the four demo devices the fair
share satisfies `fair_share × 4 = 2 × 10`. -/
theorem fair_bandwidth_spec_witness :
    (calculate_fair_bandwidth sessionC6).fair_share_mbps
        * ((sessionC6.device_count : ℕ) : ℚ)
      = 2 * total_host_bandwidth sessionC6.devices :=
  (fair_bandwidth_spec sessionC6 (by decide)).2.2

/-- Claim C5: after `calculate_cost_sharing`, every device's balance equals
`mb_used × 1.25 × 15.0 × 0.866 × 1e-5` with
`mb_used = (bytes_sent + bytes_received) / (1024 × 1024)`, and
`total_cost_usd` equals exactly the running sum of the per-device balances
accumulated in device order (invariant C3).  Arithmetic is exact over `ℚ`;
the hypothesis keeps each device's uint64 byte total below `2 ^ 64` so the
C addition does not wrap. -/
theorem cost_sharing_spec (s : blueshare_session_t)
    (h : ∀ d ∈ s.devices, d.bytes_sent + d.bytes_received < 2 ^ 64) :
    (∀ d ∈ (calculate_cost_sharing s).devices,
        d.balance_usd
          = (((d.bytes_sent : ℚ) + (d.bytes_received : ℚ)) / (1024 * 1024))
              * 1.25 * 15.0 * 0.866 * 0.00001) ∧
    (calculate_cost_sharing s).total_cost_usd
      = ((calculate_cost_sharing s).devices.map (fun d => d.balance_usd)).foldl
          (fun a b => a + b) 0 := by
  have hfold := cost_foldl_acc s.devices ([], 0)
  have hdevs : (calculate_cost_sharing s).devices
      = s.devices.map (fun d => { d with balance_usd := device_cost d }) := by
    simpa [calculate_cost_sharing] using hfold.1
  have htot : (calculate_cost_sharing s).total_cost_usd
      = (s.devices.map device_cost).sum := by
    simpa [calculate_cost_sharing] using hfold.2
  constructor
  · intro d hd
    rw [hdevs] at hd
    rcases List.mem_map.mp hd with ⟨d0, hd0, rfl⟩
    have hlt := h d0 hd0
    have hmod : (d0.bytes_sent + d0.bytes_received) % 2 ^ 64
        = d0.bytes_sent + d0.bytes_received := Nat.mod_eq_of_lt hlt
    show device_cost d0
        = (((d0.bytes_sent : ℚ) + (d0.bytes_received : ℚ)) / (1024 * 1024))
            * 1.25 * 15.0 * 0.866 * 0.00001
    rw [device_cost, work_per_mb, usd_per_joule, hmod]
    push_cast
    ring
  · rw [htot, hdevs, List.map_map]
    have hcomp : ((fun d : device_node_t => d.balance_usd) ∘
        (fun d : device_node_t => { d with balance_usd := device_cost d }))
        = device_cost := rfl
    rw [hcomp, List.sum_eq_foldl]

/-- Concrete session for the claim C5 witness: the four demo devices of
blueshare.c:408-448 with their byte counters. -/
def sessionC5 : blueshare_session_t :=
  mkSession
    [{ mkDevice "Alice" device_role_t.ROLE_HOST trinary_state_t.STATE_YES with
         bytes_sent := 5242880, bytes_received := 2097152 },
     { mkDevice "Bob" device_role_t.ROLE_CLIENT trinary_state_t.STATE_YES with
         bytes_sent := 1048576, bytes_received := 10485760 },
     { mkDevice "Carol" device_role_t.ROLE_CLIENT trinary_state_t.STATE_YES with
         bytes_sent := 524288, bytes_received := 3145728 },
     { mkDevice "Dave" device_role_t.ROLE_RELAY trinary_state_t.STATE_YES with
         bytes_sent := 2097152, bytes_received := 1048576 }]
    4

/-- Witness for `cost_sharing_spec`: at the demo session the total cost is
exactly the running sum of the stored balances. -/
theorem cost_sharing_spec_witness :
    (calculate_cost_sharing sessionC5).total_cost_usd
      = ((calculate_cost_sharing sessionC5).devices.map
          (fun d => d.balance_usd)).foldl (fun a b => a + b) 0 :=
  (cost_sharing_spec sessionC5 (by decide)).2

/-- Claim C4: for every hash primitive, context, ZeroID, challenge and
timestamp, `verify_proof` accepts the proof produced by `create_proof`
(the digest round-trips), and rejects every proof whose digest differs in
at least one of its 32 bytes from `sha256 (zid.hash ++ proof.challenge)`.
The theorem is parametric in the external OpenSSL `SHA256` function, so it
holds in particular for real SHA-256. -/
theorem proof_roundtrip_and_tamper (sha256 : List Nat → List Nat)
    (ctx : zero_context_t) (zid : zero_id_t) (challenge : List Nat)
    (now : ℤ) :
    verify_proof sha256 ctx (create_proof sha256 ctx zid challenge now) zid
      = true ∧
    (∀ p : zero_proof_t,
      (∃ i, i < 32 ∧
        p.proof.getD i 0 ≠ (sha256 (zid.hash ++ p.challenge)).getD i 0) →
      verify_proof sha256 ctx p zid = false) := by
  constructor
  · simp [verify_proof, create_proof, proof_matches, List.all_eq_true]
  · rintro p ⟨i, hi, hne⟩
    have hnot :
        ¬ proof_matches p.proof (sha256 (zid.hash ++ p.challenge)) = true := by
      rw [proof_matches, List.all_eq_true]
      intro hall
      exact hne (by simpa using hall i (List.mem_range.mpr hi))
    show proof_matches p.proof (sha256 (zid.hash ++ p.challenge)) = false
    exact Bool.eq_false_iff.mpr hnot

/-- Concrete hash stand-in for the claim C4 witness: maps any input to 32
copies of its length reduced mod 256. -/
def sampleSha (l : List Nat) : List Nat := List.replicate 32 (l.length % 256)

/-- Concrete Node-Zero context for the claim C4 witness. -/
def sampleCtx : zero_context_t :=
  { algorithm := "SHA256-HMAC"
    master_key := List.replicate 32 0
    context_salt := List.replicate 32 0 }

/-- Concrete ZeroID for the claim C4 witness. -/
def sampleZid : zero_id_t :=
  { version := 1
    hash := List.replicate 32 7
    salt := List.replicate 32 3
    created := 0 }

/-- Concrete 32-byte challenge for the claim C4 witness. -/
def sampleChallenge : List Nat := List.replicate 32 5

/-- Concrete tampered proof for the claim C4 witness: every digest byte
differs from the recomputed digest. -/
def tamperedProof : zero_proof_t :=
  { proof := List.replicate 32 9
    challenge := sampleChallenge
    timestamp := 0 }

/-- Witness for `proof_roundtrip_and_tamper` at concrete inputs: the
honest proof verifies and the tampered proof is rejected. -/
theorem proof_roundtrip_and_tamper_witness :
    verify_proof sampleSha sampleCtx
      (create_proof sampleSha sampleCtx sampleZid sampleChallenge 0)
      sampleZid = true ∧
    verify_proof sampleSha sampleCtx tamperedProof sampleZid = false := by
  have h := proof_roundtrip_and_tamper sampleSha sampleCtx sampleZid
    sampleChallenge 0
  exact ⟨h.1, h.2 tamperedProof ⟨0, by decide, by decide⟩⟩

/-- Concrete device for the claim C8 theorems. -/
def deviceC8 : device_node_t :=
  mkDevice "Bob" device_role_t.ROLE_CLIENT trinary_state_t.STATE_YES

/-- Claim C8 counterexample: at `amount_usd = 0.0007` the exact conversion
`amount / 40000 × 10^8` is 1.75 satoshi; banker's rounding yields 2, but
the code's `(uint64_t)` cast truncates to 1 (blueshare.c:325), so the
claimed banker's rounding is false at this input. -/
theorem satoshi_truncation_not_bankers :
    (process_lightning_payment deviceC8 (7 / 10000) 0).2.1.amount_satoshi = 1 ∧
    bankers_round ((7 / 10000 : ℚ) / 40000 * 10 ^ 8) = 2 ∧
    ¬ (((process_lightning_payment deviceC8 (7 / 10000) 0).2.1.amount_satoshi : ℤ)
        = bankers_round ((7 / 10000 : ℚ) / 40000 * 10 ^ 8)) := by
  have hval : ((7 : ℚ) / 10000) * btc_per_usd * ((satoshi_per_btc : ℕ) : ℚ)
      = 7 / 4 := by
    rw [btc_per_usd, satoshi_per_btc]
    norm_num
  have hval2 : ((7 / 10000 : ℚ) / 40000 * 10 ^ 8) = 7 / 4 := by norm_num
  have hfloor : ⌊(7 / 4 : ℚ)⌋ = 1 := by norm_num
  have h1 : (process_lightning_payment deviceC8 (7 / 10000) 0).2.1.amount_satoshi
      = 1 := by
    show (⌊((7 : ℚ) / 10000) * btc_per_usd * ((satoshi_per_btc : ℕ) : ℚ)⌋).toNat = 1
    rw [hval, hfloor]
    rfl
  have h2 : bankers_round ((7 / 10000 : ℚ) / 40000 * 10 ^ 8) = 2 := by
    rw [hval2, bankers_round, hfloor]
    norm_num
  refine ⟨h1, h2, ?_⟩
  rw [h1, h2]
  decide

/-- Claim C8 (amended): `process_lightning_payment` converts USD to satoshi
as `satoshi = ⌊amount_usd / 40000 × 10^8⌋` — truncation toward zero, not
banker's rounding — with the USD-per-BTC rate hard-coded to 40,000, and
sets the invoice expiry to `now + 600` seconds.  The hypothesis restricts
to non-negative amounts, where the C `(uint64_t)` cast of the `double`
product is defined and truncates. -/
theorem lightning_invoice_spec (device : device_node_t) (amount_usd : ℚ)
    (now : ℤ) (h : 0 ≤ amount_usd) :
    (process_lightning_payment device amount_usd now).2.1.amount_satoshi
      = (⌊amount_usd / 40000 * 10 ^ 8⌋).toNat ∧
    (process_lightning_payment device amount_usd now).2.1.expiry = now + 600 := by
  have key : amount_usd * btc_per_usd * ((satoshi_per_btc : ℕ) : ℚ)
      = amount_usd / 40000 * 10 ^ 8 := by
    rw [btc_per_usd, satoshi_per_btc]
    push_cast
    ring
  constructor
  · show (⌊amount_usd * btc_per_usd * ((satoshi_per_btc : ℕ) : ℚ)⌋).toNat = _
    rw [key]
  · rfl

/-- Witness for `lightning_invoice_spec`: at `amount_usd = 1/2` and
`now = 5` the invoice carries 1250 satoshi and expires at 605. -/
theorem lightning_invoice_spec_witness :
    (process_lightning_payment deviceC8 (1 / 2) 5).2.1.amount_satoshi = 1250 ∧
    (process_lightning_payment deviceC8 (1 / 2) 5).2.1.expiry = 605 := by
  have h := lightning_invoice_spec deviceC8 (1 / 2) 5 (by norm_num)
  refine ⟨h.1.trans ?_, h.2.trans (by norm_num)⟩
  have hv : ((1 : ℚ) / 2) / 40000 * 10 ^ 8 = 1250 := by norm_num
  rw [hv]
  decide
